import Mathlib

/-!
Verification of the deterministic quasi-random color generation core of the
napari colormap module (`napari/util/colormaps/colormaps.py`).

Numbers are modelled as exact rationals (`ℚ`); the numeric literals below are
exactly the decimal literals appearing in the Python source.  NumPy arrays of
shape `(n, dim)` become `List (List ℚ)`; RGB triples become `ℚ × ℚ × ℚ`.
NumPy's `% 1` on floats (sign of the divisor) becomes `fract`:
`x - ⌊x⌋`.  A seed (scalar or 1-d array) is a `List ℚ`, a scalar being the
one-element list, matching NumPy broadcast semantics of shapes `()`/`(1,)`.
Functions that raise in Python return `Option`.
-/

/-- `x % 1` for a rational, as NumPy computes it on floats: `x - floor x`. -/
def mod1 (x : ℚ) : ℚ := x - (⌊x⌋ : ℚ)

/-- First generalized-golden-ratio constant, from `_low_discrepancy`. -/
def phi1 : ℚ := 1.6180339887498948482

/-- Second generalized-golden-ratio constant, from `_low_discrepancy`. -/
def phi2 : ℚ := 1.32471795724474602596

/-- Third generalized-golden-ratio constant, from `_low_discrepancy`. -/
def phi3 : ℚ := 1.22074408460575947536

/-- NumPy broadcast of a seed of shape `()`/`(1,)` or `(dim,)` across
coordinate `d`: a length-1 seed repeats, otherwise element `d` is used. -/
def seedAt (seed : List ℚ) (d : ℕ) : ℚ :=
  if seed.length = 1 then seed.getD 0 0 else seed.getD d 0

/-- The point array computed by `_low_discrepancy` when broadcasting succeeds:
`pts[i][d] = (seed_d + i * (1/phi_d)) % 1` (source line
`pts = (seed + (n * g[:dim])) % 1`). -/
def ldPoints (dim n : ℕ) (seed : List ℚ) : List (List ℚ) :=
  (List.range n).map fun (i : ℕ) =>
    (List.range dim).map fun (d : ℕ) =>
      mod1 (seedAt seed d + (i : ℚ) * (1 / ([phi1, phi2, phi3].getD d 0)))

/-- `_low_discrepancy(dim, n, seed)`.  The source performs
`np.broadcast_to(seed, (1, dim))` (fails unless the seed has length 1 or
`dim`) and then adds an array of shape `(n, min dim 3)` (the slice `g[:dim]`
of the 3-element array `g`), which broadcasts against `(1, dim)` exactly when
`dim ≤ 3`.  There is no explicit dimension check in the source; failures are
NumPy broadcast `ValueError`s, modelled as `none`. -/
def _low_discrepancy (dim n : ℕ) (seed : List ℚ) : Option (List (List ℚ)) :=
  if (seed.length = 1 ∨ seed.length = dim) ∧ dim ≤ 3 then
    some (ldPoints dim n seed)
  else
    none

/-- `_low_discrepancy_image(image, seed) = (seed + image / phi) % 1`,
elementwise over an integer label array. -/
def _low_discrepancy_image (image : List ℤ) (seed : ℚ) : List ℚ :=
  let phi : ℚ := 1.6180339887498948482
  image.map fun (L : ℤ) => mod1 (seed + (L : ℚ) / phi)

/-- `np.clip(x, 0, 1)` on one channel. -/
def clip01 (x : ℚ) : ℚ := min (max x 0) 1

/-- `_validate_rgb(colors, tolerance)`: keep the triples whose channels all
lie strictly inside `(0 - tolerance, 1 + tolerance)` and clip them to
`[0, 1]`. -/
def _validate_rgb (colors : List (ℚ × ℚ × ℚ)) (tolerance : ℚ) :
    List (ℚ × ℚ × ℚ) :=
  let lo := 0 - tolerance
  let hi := 1 + tolerance
  (colors.filter fun c =>
      decide (lo < c.1 ∧ c.1 < hi ∧ lo < c.2.1 ∧ c.2.1 < hi ∧
        lo < c.2.2 ∧ c.2.2 < hi)).map
    fun c => (clip01 c.1, clip01 c.2.1, clip01 c.2.2)

/-- LUV bounding-box minimum (source constant `LUVMIN`). -/
def LUVMIN : ℚ × ℚ × ℚ := (0, -83.07790815, -134.09790293)

/-- LUV bounding-box maximum (source constant `LUVMAX`). -/
def LUVMAX : ℚ × ℚ × ℚ := (100, 175.01447356, 107.39905336)

/-- `LUVRNG = LUVMAX - LUVMIN`. -/
def LUVRNG : ℚ × ℚ × ℚ :=
  (LUVMAX.1 - LUVMIN.1, LUVMAX.2.1 - LUVMIN.2.1, LUVMAX.2.2 - LUVMIN.2.2)

/-- LAB bounding-box minimum (source constant `LABMIN`). -/
def LABMIN : ℚ × ℚ × ℚ := (0, -86.18302974, -107.85730021)

/-- LAB bounding-box maximum (source constant `LABMAX`). -/
def LABMAX : ℚ × ℚ × ℚ := (100, 98.23305386, 94.47812228)

/-- `LABRNG = LABMAX - LABMIN`. -/
def LABRNG : ℚ × ℚ × ℚ :=
  (LABMAX.1 - LABMIN.1, LABMAX.2.1 - LABMIN.2.1, LABMAX.2.2 - LABMIN.2.2)

/-- Elementwise `p * rng + mn`, the affine map of a unit-cube point into a
colorspace bounding box. -/
def scaleShift (rng mn p : ℚ × ℚ × ℚ) : ℚ × ℚ × ℚ :=
  (p.1 * rng.1 + mn.1, p.2.1 * rng.2.1 + mn.2.1, p.2.2 * rng.2.2 + mn.2.2)

/-- A row of the `(m, 3)` point array as an RGB triple. -/
def toTriple (l : List ℚ) : ℚ × ℚ × ℚ := (l.getD 0 0, l.getD 1 0, l.getD 2 0)

/-- The `raw_rgb` computation of `_color_random`'s loop body: `luv2rgb` over
the LUV box for `'luv'`, the points themselves for `'rgb'`, and `lab2rgb`
over the LAB box for anything else (`'lab' by default`).  `lab2rgb` and
`luv2rgb` live in the vendored `colorconv` module, which is not part of this
repository's sources; they are taken as parameters. -/
def raw_rgb_batch (lab2rgb luv2rgb : ℚ × ℚ × ℚ → ℚ × ℚ × ℚ)
    (colorspace : String) (random : List (ℚ × ℚ × ℚ)) : List (ℚ × ℚ × ℚ) :=
  if colorspace = "luv" then random.map fun p => luv2rgb (scaleShift LUVRNG LUVMIN p)
  else if colorspace = "rgb" then random
  else random.map fun p => lab2rgb (scaleShift LABRNG LABMIN p)

/-- The `while len(rgb) < n` loop of `_color_random`, with explicit fuel for
the unbounded retry (the source has no iteration cap; exhausted fuel is
`none`).  Each iteration redraws `n * factor` low-discrepancy points from the
same seed, converts, validates, and doubles `factor`. -/
def _color_random_go (lab2rgb luv2rgb : ℚ × ℚ × ℚ → ℚ × ℚ × ℚ) (n : ℕ)
    (colorspace : String) (tolerance : ℚ) (seed : List ℚ) :
    ℕ → ℕ → List (ℚ × ℚ × ℚ) → Option (List (ℚ × ℚ × ℚ))
  | 0, _, rgb =>
    if n ≤ rgb.length then some (rgb.take n) else none
  | Nat.succ f, factor, rgb =>
    if n ≤ rgb.length then some (rgb.take n)
    else
      match _low_discrepancy 3 (n * factor) seed with
      | none => none
      | some random =>
        _color_random_go lab2rgb luv2rgb n colorspace tolerance seed f
          (factor * 2)
          (_validate_rgb
            (raw_rgb_batch lab2rgb luv2rgb colorspace (random.map toTriple))
            tolerance)

/-- `_color_random(n, colorspace, tolerance, seed)`: the loop starts with
`factor = 6` and `rgb` empty and returns `rgb[:n]`. -/
def _color_random (lab2rgb luv2rgb : ℚ × ℚ × ℚ → ℚ × ℚ × ℚ) (fuel n : ℕ)
    (colorspace : String) (tolerance : ℚ) (seed : List ℚ) :
    Option (List (ℚ × ℚ × ℚ)) :=
  _color_random_go lab2rgb luv2rgb n colorspace tolerance seed fuel 6 []

/-- The valid colors produced from the first `m` points of the quasirandom
sequence, in generation order. -/
def validColors (lab2rgb luv2rgb : ℚ × ℚ × ℚ → ℚ × ℚ × ℚ)
    (colorspace : String) (tolerance : ℚ) (seed : List ℚ) (m : ℕ) :
    List (ℚ × ℚ × ℚ) :=
  _validate_rgb
    (raw_rgb_batch lab2rgb luv2rgb colorspace ((ldPoints 3 m seed).map toTriple))
    tolerance

/-- `np.linspace(0, 1, m)`: `m` points `i / (m - 1)` (for `m = 1` NumPy
returns `[0.]`, matching `0/0 = 0` in `ℚ`). -/
def linspace01 (m : ℕ) : List ℚ :=
  (List.range m).map fun (i : ℕ) => (i : ℚ) / ((m : ℚ) - 1)

/-- Modelled from the spec: `vispy.color.Colormap` (the vispy library is not
part of this repository's sources).  Per §3/§4.4 a colormap is an ordered
sequence of control points with RGBA colors and an interpolation mode. -/
structure Colormap where
  colors : List (ℚ × ℚ × ℚ × ℚ)
  controls : List ℚ
  interpolation : String
  deriving DecidableEq, Repr

/-- `label_colormap(num_colors, seed)`: control points
`[0] ++ linspace(0, 1, num_colors - 1) ++ [1]`, colors from
`_color_random(num_colors, seed=seed)` with alpha 1 appended, and row 0
overwritten with zeros. -/
def label_colormap (lab2rgb luv2rgb : ℚ × ℚ × ℚ → ℚ × ℚ × ℚ) (fuel : ℕ)
    (num_colors : ℕ) (seed : List ℚ) : Option Colormap :=
  let midpoints := linspace01 (num_colors - 1)
  let control_points := [(0 : ℚ)] ++ midpoints ++ [1]
  (_color_random lab2rgb luv2rgb fuel num_colors "lab" 0 seed).map fun cs =>
    let colors := cs.map fun c => (c.1, c.2.1, c.2.2, (1 : ℚ))
    let colors := colors.set 0 (0, 0, 0, 0)
    { colors := colors, controls := control_points, interpolation := "zero" }

example : mod1 (3 / 2 : ℚ) = 1 / 2 := by norm_num [mod1]
example : mod1 (-1 / 4 : ℚ) = 3 / 4 := by norm_num [mod1]
example : _low_discrepancy 0 2 [1/2] = some [[], []] := by
  simp [_low_discrepancy, ldPoints, List.range_succ]
example : _low_discrepancy 4 1 [1/2] = none := by
  simp [_low_discrepancy]

/-! ### Helper lemmas -/

theorem low_discrepancy_some {dim n : ℕ} {seed : List ℚ} {pts : List (List ℚ)}
    (h : _low_discrepancy dim n seed = some pts) : pts = ldPoints dim n seed := by
  unfold _low_discrepancy at h
  split at h
  · exact (Option.some.injEq _ _ ▸ h).symm
  · exact absurd h (by simp)

theorem ldPoints_getD (dim n i d : ℕ) (seed : List ℚ) (hi : i < n) (hd : d < dim) :
    (((ldPoints dim n seed).getD i []).getD d 0) =
      mod1 (seedAt seed d + (i : ℚ) * (1 / ([phi1, phi2, phi3].getD d 0))) := by
  have h1 : (ldPoints dim n seed).getD i [] =
      (List.range dim).map fun (d : ℕ) =>
        mod1 (seedAt seed d + (i : ℚ) * (1 / ([phi1, phi2, phi3].getD d 0))) := by
    unfold ldPoints
    rw [List.getD_eq_getElem?_getD, List.getElem?_map, List.getElem?_range hi]
    rfl
  rw [h1, List.getD_eq_getElem?_getD, List.getElem?_map, List.getElem?_range hd]
  simp

theorem clip01_nonneg (x : ℚ) : 0 ≤ clip01 x :=
  le_min (le_max_right x 0) zero_le_one

theorem clip01_le_one (x : ℚ) : clip01 x ≤ 1 := min_le_right _ _

/-! ### C1, C3, C7 : the low-discrepancy point generator -/

/-- C1: for `dim ∈ {1,2,3}`, any `n` and any broadcastable seed, the `i`-th
point returned by `_low_discrepancy` equals `(seed + i * g) mod 1`
elementwise with `g[d] = 1/phi_d`, and the constants `phi_d` agree with the
values stated in the spec to the precision stated there (within half an ulp
of the last printed digit). -/
theorem c1_low_discrepancy_point_formula (dim n i d : ℕ) (seed : List ℚ)
    (hdim : dim = 1 ∨ dim = 2 ∨ dim = 3)
    (hseed : seed.length = 1 ∨ seed.length = dim)
    (hi : i < n) (hd : d < dim) :
    ∃ pts, _low_discrepancy dim n seed = some pts ∧
      ((pts.getD i []).getD d 0) =
        mod1 (seedAt seed d + (i : ℚ) * (1 / ([phi1, phi2, phi3].getD d 0))) ∧
      |phi1 - 1.6180339887498948482| ≤ 5 / 10 ^ 17 ∧
      |phi2 - 1.3247179572447460| ≤ 5 / 10 ^ 17 ∧
      |phi3 - 1.2207440846057595| ≤ 5 / 10 ^ 17 := by
  have hdim3 : dim ≤ 3 := by rcases hdim with h | h | h <;> simp [h]
  refine ⟨ldPoints dim n seed, ?_, ldPoints_getD dim n i d seed hi hd, ?_, ?_, ?_⟩
  · unfold _low_discrepancy
    rw [if_pos ⟨hseed, hdim3⟩]
  · rw [abs_le]; constructor <;> norm_num [phi1]
  · rw [abs_le]; constructor <;> norm_num [phi2]
  · rw [abs_le]; constructor <;> norm_num [phi3]

/-- Witness for C1 at `dim = 2`, `n = 3`, `i = 1`, `d = 1`, seed `[1/2]`. -/
theorem c1_witness :
    ∃ pts, _low_discrepancy 2 3 [1/2] = some pts ∧
      ((pts.getD 1 []).getD 1 0) =
        mod1 (seedAt [1/2] 1 + ((1 : ℕ) : ℚ) * (1 / ([phi1, phi2, phi3].getD 1 0))) ∧
      |phi1 - 1.6180339887498948482| ≤ 5 / 10 ^ 17 ∧
      |phi2 - 1.3247179572447460| ≤ 5 / 10 ^ 17 ∧
      |phi3 - 1.2207440846057595| ≤ 5 / 10 ^ 17 :=
  c1_low_discrepancy_point_formula 2 3 1 1 [1/2] (Or.inr (Or.inl rfl))
    (Or.inl rfl) (by decide) (by decide)

/-- C3: prefix property — the first `n` points of a draw of `n + k` points
coincide with a draw of `n` points from the same seed. -/
theorem c3_prefix_property (dim n k : ℕ) (seed : List ℚ)
    (hdim : dim = 1 ∨ dim = 2 ∨ dim = 3) :
    (_low_discrepancy dim (n + k) seed).map (List.take n) =
      _low_discrepancy dim n seed := by
  unfold _low_discrepancy
  by_cases h : (seed.length = 1 ∨ seed.length = dim) ∧ dim ≤ 3
  · rw [if_pos h, if_pos h, Option.map_some']
    congr 1
    unfold ldPoints
    rw [← List.map_take, List.take_range]
    congr 2
    omega
  · rw [if_neg h, if_neg h, Option.map_none']

/-- Witness for C3 at `dim = 1`, `n = 2`, `k = 3`, seed `[1/2]`. -/
theorem c3_witness :
    (_low_discrepancy 1 (2 + 3) [1/2]).map (List.take 2) =
      _low_discrepancy 1 2 [1/2] :=
  c3_prefix_property 1 2 3 [1/2] (Or.inl rfl)

/-- C7 counterexample: `dim = 0` lies outside `{1,2,3}`, yet
`_low_discrepancy 0 1 [1/2]` raises nothing at all — it returns one empty
point.  (The source has no dimension check and no `InvalidDimension`.) -/
theorem c7_counterexample :
    (0 : ℕ) ∉ ([1, 2, 3] : List ℕ) ∧
      _low_discrepancy 0 1 [1/2] = some [[]] := by
  refine ⟨by decide, ?_⟩
  simp [_low_discrepancy, ldPoints, List.range_succ]

/-- C7 (amended): with a broadcastable seed, `_low_discrepancy dim n seed`
succeeds exactly when `dim ≤ 3`.  For `dim ≥ 4` the call fails — with a NumPy
broadcast `ValueError`, there being no `InvalidDimension` error in the code —
while `dim = 0` succeeds and returns `n` empty points. -/
theorem c7_amended_dim_check (dim n : ℕ) (seed : List ℚ)
    (hseed : seed.length = 1 ∨ seed.length = dim) :
    ((_low_discrepancy dim n seed).isSome ↔ dim ≤ 3) ∧
      (dim = 0 → _low_discrepancy dim n seed = some (List.replicate n [])) := by
  constructor
  · unfold _low_discrepancy
    by_cases h3 : dim ≤ 3
    · rw [if_pos ⟨hseed, h3⟩]; simp [h3]
    · rw [if_neg]
      · simp [h3]
      · intro hc; exact h3 hc.2
  · intro h0
    subst h0
    unfold _low_discrepancy
    rw [if_pos ⟨hseed, by norm_num⟩]
    unfold ldPoints
    simp [List.map_const']

/-- Witness for C7 (amended) at `dim = 4`, `n = 1`, seed `[1/2]`. -/
theorem c7_amended_witness :
    (((_low_discrepancy 4 1 [1/2]).isSome ↔ (4 : ℕ) ≤ 3) ∧
      ((4 : ℕ) = 0 → _low_discrepancy 4 1 [1/2] = some (List.replicate 1 []))) :=
  c7_amended_dim_check 4 1 [1/2] (Or.inl rfl)

/-! ### C8 : the direct label hash -/

/-- C8: `_low_discrepancy_image` computes `(seed + L / phi) mod 1` with
`phi = 1.6180339887498948482` elementwise, so the value at index `i` of a
batch equals the value computed for the single label `image[i]` alone. -/
theorem c8_label_hash_pointwise (image : List ℤ) (seed : ℚ) (i : ℕ)
    (h : i < image.length) :
    (_low_discrepancy_image image seed).getD i 0 =
      mod1 (seed + ((image.getD i 0 : ℤ) : ℚ) / 1.6180339887498948482) ∧
    (_low_discrepancy_image image seed).getD i 0 =
      (_low_discrepancy_image [image.getD i 0] seed).getD 0 0 := by
  obtain ⟨v, hv⟩ : ∃ v, image[i]? = some v := ⟨image[i], List.getElem?_eq_getElem h⟩
  have hgetD : image.getD i 0 = v := by
    rw [List.getD_eq_getElem?_getD, hv, Option.getD_some]
  constructor
  · unfold _low_discrepancy_image
    rw [List.getD_eq_getElem?_getD, List.getElem?_map, hv, hgetD]
    simp
  · unfold _low_discrepancy_image
    rw [List.getD_eq_getElem?_getD, List.getElem?_map, hv, hgetD]
    simp

/-- Witness for C8 at `image = [0, 1, 42]`, `i = 2`, seed `1/2`. -/
theorem c8_witness :
    ((_low_discrepancy_image [0, 1, 42] (1/2)).getD 2 0 =
      mod1 (1/2 + ((([0, 1, 42] : List ℤ).getD 2 0 : ℤ) : ℚ) / 1.6180339887498948482) ∧
    (_low_discrepancy_image [0, 1, 42] (1/2)).getD 2 0 =
      (_low_discrepancy_image [([0, 1, 42] : List ℤ).getD 2 0] (1/2)).getD 0 0) :=
  c8_label_hash_pointwise [0, 1, 42] (1/2) 2 (by decide)

/-! ### C4 : the RGB validator -/

/-- C4: `_validate_rgb` keeps a triple iff each channel lies strictly within
`(-tolerance, 1 + tolerance)`; kept triples are clipped per channel to
`[0, 1]` and appear in input order; the output is never longer than the
input. -/
theorem c4_validate_rgb_spec (colors : List (ℚ × ℚ × ℚ)) (tolerance : ℚ)
    (htol : 0 ≤ tolerance) :
    (_validate_rgb colors tolerance).length ≤ colors.length ∧
    (∃ kept : List (ℚ × ℚ × ℚ), kept.Sublist colors ∧
      (∀ c, c ∈ kept ↔ c ∈ colors ∧
        (-tolerance < c.1 ∧ c.1 < 1 + tolerance ∧
         -tolerance < c.2.1 ∧ c.2.1 < 1 + tolerance ∧
         -tolerance < c.2.2 ∧ c.2.2 < 1 + tolerance)) ∧
      _validate_rgb colors tolerance =
        kept.map fun c =>
          (min (max c.1 0) 1, min (max c.2.1 0) 1, min (max c.2.2 0) 1)) ∧
    (∀ c ∈ _validate_rgb colors tolerance,
      0 ≤ c.1 ∧ c.1 ≤ 1 ∧ 0 ≤ c.2.1 ∧ c.2.1 ≤ 1 ∧ 0 ≤ c.2.2 ∧ c.2.2 ≤ 1) := by
  refine ⟨?_, ⟨colors.filter fun c =>
      decide (0 - tolerance < c.1 ∧ c.1 < 1 + tolerance ∧
        0 - tolerance < c.2.1 ∧ c.2.1 < 1 + tolerance ∧
        0 - tolerance < c.2.2 ∧ c.2.2 < 1 + tolerance),
    List.filter_sublist _, ?_, ?_⟩, ?_⟩
  · unfold _validate_rgb
    calc ((colors.filter _).map _).length = (colors.filter _).length :=
          List.length_map _ _
      _ ≤ colors.length := List.length_filter_le _ _
  · intro c
    rw [List.mem_filter, decide_eq_true_eq, zero_sub]
  · rfl
  · intro c hc
    unfold _validate_rgb at hc
    obtain ⟨a, _, rfl⟩ := List.mem_map.mp hc
    exact ⟨clip01_nonneg _, clip01_le_one _, clip01_nonneg _, clip01_le_one _,
      clip01_nonneg _, clip01_le_one _⟩

/-- Demonstration input for the validator, the triples of the source
doctest. -/
def demoColors : List (ℚ × ℚ × ℚ) := [(0, 1, 1), (11/10, 0, -3/100), (6/5, 1, 1/2)]

/-- Witness for C4 at the doctest input with tolerance `0`. -/
theorem c4_witness :
    (0 : ℚ) ≤ 0 ∧ (_validate_rgb demoColors 0).length ≤ demoColors.length :=
  ⟨le_refl 0, (c4_validate_rgb_spec demoColors 0 (le_refl 0)).1⟩

/-! ### Helper lemmas for `_color_random` -/

theorem low_discrepancy_succeeds {m : ℕ} {seed : List ℚ}
    (h : seed.length = 1 ∨ seed.length = 3) :
    _low_discrepancy 3 m seed = some (ldPoints 3 m seed) := by
  unfold _low_discrepancy
  rw [if_pos ⟨h, by norm_num⟩]

theorem ldPoints_add (d m k : ℕ) (seed : List ℚ) :
    ldPoints d (m + k) seed = ldPoints d m seed ++
      (List.range k).map (fun (j : ℕ) => (List.range d).map fun (dd : ℕ) =>
        mod1 (seedAt seed dd +
          ((m + j : ℕ) : ℚ) * (1 / ([phi1, phi2, phi3].getD dd 0)))) := by
  unfold ldPoints
  rw [List.range_add, List.map_append, List.map_map]
  rfl

theorem validate_rgb_append (a b : List (ℚ × ℚ × ℚ)) (t : ℚ) :
    _validate_rgb (a ++ b) t = _validate_rgb a t ++ _validate_rgb b t := by
  simp only [_validate_rgb]
  rw [List.filter_append, List.map_append]

theorem raw_rgb_batch_append (l2r u2r : ℚ × ℚ × ℚ → ℚ × ℚ × ℚ) (cs : String)
    (a b : List (ℚ × ℚ × ℚ)) :
    raw_rgb_batch l2r u2r cs (a ++ b) =
      raw_rgb_batch l2r u2r cs a ++ raw_rgb_batch l2r u2r cs b := by
  unfold raw_rgb_batch
  by_cases h1 : cs = "luv" <;> by_cases h2 : cs = "rgb" <;> simp [h1, h2]

theorem raw_rgb_batch_nil (l2r u2r : ℚ × ℚ × ℚ → ℚ × ℚ × ℚ) (cs : String) :
    raw_rgb_batch l2r u2r cs [] = [] := by
  unfold raw_rgb_batch
  by_cases h1 : cs = "luv" <;> by_cases h2 : cs = "rgb" <;> simp [h1, h2]

theorem validColors_zero (l2r u2r : ℚ × ℚ × ℚ → ℚ × ℚ × ℚ) (cs : String)
    (tol : ℚ) (seed : List ℚ) : validColors l2r u2r cs tol seed 0 = [] := by
  unfold validColors ldPoints
  simp [raw_rgb_batch_nil, _validate_rgb]

theorem validColors_extends (l2r u2r : ℚ × ℚ × ℚ → ℚ × ℚ × ℚ) (cs : String)
    (tol : ℚ) (seed : List ℚ) {m m' : ℕ} (h : m ≤ m') :
    ∃ t, validColors l2r u2r cs tol seed m' =
      validColors l2r u2r cs tol seed m ++ t := by
  obtain ⟨k, rfl⟩ := Nat.exists_eq_add_of_le h
  unfold validColors
  rw [ldPoints_add, List.map_append, raw_rgb_batch_append, validate_rgb_append]
  exact ⟨_, rfl⟩

theorem validColors_take (l2r u2r : ℚ × ℚ × ℚ → ℚ × ℚ × ℚ) (cs : String)
    (tol : ℚ) (seed : List ℚ) {m m' n : ℕ} (h : m ≤ m')
    (hn : n ≤ (validColors l2r u2r cs tol seed m).length) :
    (validColors l2r u2r cs tol seed m').take n =
      (validColors l2r u2r cs tol seed m).take n := by
  obtain ⟨t, ht⟩ := validColors_extends l2r u2r cs tol seed h
  rw [ht, List.take_append_of_le_length hn]

theorem color_random_go_some (l2r u2r : ℚ × ℚ × ℚ → ℚ × ℚ × ℚ) (n : ℕ)
    (cs : String) (tol : ℚ) (seed : List ℚ) :
    ∀ (fuel factor m : ℕ) (rgb out : List (ℚ × ℚ × ℚ)),
      rgb = validColors l2r u2r cs tol seed m →
      _color_random_go l2r u2r n cs tol seed fuel factor rgb = some out →
      ∃ m', out = (validColors l2r u2r cs tol seed m').take n ∧
        n ≤ (validColors l2r u2r cs tol seed m').length := by
  intro fuel
  induction fuel with
  | zero =>
    intro factor m rgb out hm hgo
    simp only [_color_random_go] at hgo
    split at hgo
    case isTrue h =>
      obtain rfl := Option.some.inj hgo
      subst hm
      exact ⟨m, rfl, h⟩
    case isFalse h => exact absurd hgo (by simp)
  | succ f ih =>
    intro factor m rgb out hm hgo
    simp only [_color_random_go] at hgo
    split at hgo
    case isTrue h =>
      obtain rfl := Option.some.inj hgo
      subst hm
      exact ⟨m, rfl, h⟩
    case isFalse h =>
      cases hld : _low_discrepancy 3 (n * factor) seed with
      | none =>
        rw [hld] at hgo
        exact absurd hgo (by simp)
      | some random =>
        rw [hld] at hgo
        have hr : random = ldPoints 3 (n * factor) seed := low_discrepancy_some hld
        refine ih (factor * 2) (n * factor) _ out ?_ hgo
        rw [hr]
        rfl

theorem color_random_some_spec (l2r u2r : ℚ × ℚ × ℚ → ℚ × ℚ × ℚ)
    (fuel n : ℕ) (cs : String) (tol : ℚ) (seed : List ℚ)
    (out : List (ℚ × ℚ × ℚ))
    (h : _color_random l2r u2r fuel n cs tol seed = some out) :
    ∃ m', out = (validColors l2r u2r cs tol seed m').take n ∧
      n ≤ (validColors l2r u2r cs tol seed m').length :=
  color_random_go_some l2r u2r n cs tol seed fuel 6 0 [] out
    (validColors_zero l2r u2r cs tol seed).symm h

theorem validate_rgb_mem_bounds (l : List (ℚ × ℚ × ℚ)) (t : ℚ) :
    ∀ c ∈ _validate_rgb l t,
      0 ≤ c.1 ∧ c.1 ≤ 1 ∧ 0 ≤ c.2.1 ∧ c.2.1 ≤ 1 ∧ 0 ≤ c.2.2 ∧ c.2.2 ≤ 1 := by
  intro c hc
  unfold _validate_rgb at hc
  obtain ⟨a, _, rfl⟩ := List.mem_map.mp hc
  exact ⟨clip01_nonneg _, clip01_le_one _, clip01_nonneg _, clip01_le_one _,
    clip01_nonneg _, clip01_le_one _⟩

/-! ### C2 : the rejection-sampling color generator -/

/-- C2: whenever `_color_random` terminates it returns exactly `n` RGB
triples, every channel lying in `[0, 1]`, and the result is the first `n`
valid colors in generation order: the `n`-prefix of the validated conversion
of every sufficiently long draw of the quasirandom sequence. -/
theorem c2_color_random_first_n_valid (l2r u2r : ℚ × ℚ × ℚ → ℚ × ℚ × ℚ)
    (fuel n : ℕ) (cs : String) (tol : ℚ) (seed : List ℚ)
    (out : List (ℚ × ℚ × ℚ))
    (hcs : cs = "lab" ∨ cs = "luv" ∨ cs = "rgb") (hn : 1 ≤ n)
    (h : _color_random l2r u2r fuel n cs tol seed = some out) :
    out.length = n ∧
    (∀ c ∈ out,
      0 ≤ c.1 ∧ c.1 ≤ 1 ∧ 0 ≤ c.2.1 ∧ c.2.1 ≤ 1 ∧ 0 ≤ c.2.2 ∧ c.2.2 ≤ 1) ∧
    ∃ m, n ≤ (validColors l2r u2r cs tol seed m).length ∧
      ∀ m', m ≤ m' → out = (validColors l2r u2r cs tol seed m').take n := by
  obtain ⟨m, rfl, hlen⟩ :=
    color_random_some_spec l2r u2r fuel n cs tol seed out h
  refine ⟨?_, ?_, m, hlen, ?_⟩
  · rw [List.length_take]
    omega
  · intro c hc
    exact validate_rgb_mem_bounds _ _ c (List.mem_of_mem_take hc)
  · intro m' hm'
    exact (validColors_take l2r u2r cs tol seed hm' hlen).symm

/-- A stand-in conversion function for concrete runs: every point maps to
mid-gray, which is always valid. -/
def constHalf : ℚ × ℚ × ℚ → ℚ × ℚ × ℚ := fun _ => (1/2, 1/2, 1/2)

theorem raw_rgb_batch_constHalf_lab (l : List (ℚ × ℚ × ℚ)) :
    raw_rgb_batch constHalf constHalf "lab" l =
      List.replicate l.length (1/2, 1/2, 1/2) := by
  unfold raw_rgb_batch constHalf
  rw [if_neg (by decide), if_neg (by decide)]
  exact List.map_const' l _

theorem validate_replicate_half (n : ℕ) :
    _validate_rgb (List.replicate n (1/2, 1/2, 1/2)) 0 =
      List.replicate n (1/2, 1/2, 1/2) := by
  simp only [_validate_rgb]
  rw [List.filter_replicate, if_pos (decide_eq_true (by norm_num)),
    List.map_replicate]
  norm_num [clip01]

theorem go_enough (l2r u2r : ℚ × ℚ × ℚ → ℚ × ℚ × ℚ) (n : ℕ) (cs : String)
    (tol : ℚ) (seed : List ℚ) (fuel factor : ℕ) (rgb : List (ℚ × ℚ × ℚ))
    (hlen : n ≤ rgb.length) :
    _color_random_go l2r u2r n cs tol seed fuel factor rgb =
      some (rgb.take n) := by
  cases fuel <;> simp only [_color_random_go] <;> rw [if_pos hlen]

theorem go_step (l2r u2r : ℚ × ℚ × ℚ → ℚ × ℚ × ℚ) (n : ℕ) (cs : String)
    (tol : ℚ) (seed : List ℚ) (f factor : ℕ) (rgb : List (ℚ × ℚ × ℚ))
    (pts : List (List ℚ)) (hlen : ¬ n ≤ rgb.length)
    (hld : _low_discrepancy 3 (n * factor) seed = some pts) :
    _color_random_go l2r u2r n cs tol seed (f + 1) factor rgb =
      _color_random_go l2r u2r n cs tol seed f (factor * 2)
        (_validate_rgb (raw_rgb_batch l2r u2r cs (pts.map toTriple)) tol) := by
  simp only [_color_random_go]
  rw [if_neg hlen, hld]

theorem color_random_constHalf (n f : ℕ) (hn : 1 ≤ n) :
    _color_random constHalf constHalf (f + 1) n "lab" 0 [1/2] =
      some (List.replicate n (1/2, 1/2, 1/2)) := by
  unfold _color_random
  rw [go_step constHalf constHalf n "lab" 0 [1/2] f 6 []
      (ldPoints 3 (n * 6) [1/2]) (by simp; omega)
      (low_discrepancy_succeeds (Or.inl rfl))]
  rw [raw_rgb_batch_constHalf_lab, validate_replicate_half]
  have hm : ((ldPoints 3 (n * 6) [1/2]).map toTriple).length = n * 6 := by
    simp [ldPoints]
  rw [hm]
  rw [go_enough constHalf constHalf n "lab" 0 [1/2] f 12 _ (by simp; omega)]
  rw [List.take_replicate, Nat.min_eq_left (by omega)]

/-- Witness for C2: `_color_random` with the mid-gray conversion,
`n = 2`, fuel 1, colorspace `"lab"`, tolerance 0, seed `[1/2]`. -/
theorem c2_witness :
    (("lab" : String) = "lab" ∨ ("lab" : String) = "luv" ∨
      ("lab" : String) = "rgb") ∧ (1 : ℕ) ≤ 2 ∧
    ((List.replicate 2 ((1:ℚ)/2, (1:ℚ)/2, (1:ℚ)/2)).length = 2 ∧
    (∀ c ∈ List.replicate 2 ((1:ℚ)/2, (1:ℚ)/2, (1:ℚ)/2),
      0 ≤ c.1 ∧ c.1 ≤ 1 ∧ 0 ≤ c.2.1 ∧ c.2.1 ≤ 1 ∧ 0 ≤ c.2.2 ∧ c.2.2 ≤ 1) ∧
    ∃ m, 2 ≤ (validColors constHalf constHalf "lab" 0 [1/2] m).length ∧
      ∀ m', m ≤ m' →
        List.replicate 2 ((1:ℚ)/2, (1:ℚ)/2, (1:ℚ)/2) =
          (validColors constHalf constHalf "lab" 0 [1/2] m').take 2) :=
  ⟨Or.inl rfl, by norm_num,
    c2_color_random_first_n_valid constHalf constHalf 1 2 "lab" 0 [1/2]
      (List.replicate 2 (1/2, 1/2, 1/2)) (Or.inl rfl) (by norm_num)
      (color_random_constHalf 2 0 (by norm_num))⟩

/-! ### C10 : unrecognized colorspace strings fall back to lab -/

theorem raw_rgb_batch_fallback (l2r u2r : ℚ × ℚ × ℚ → ℚ × ℚ × ℚ)
    (s : String) (h1 : s ≠ "luv") (h2 : s ≠ "rgb") (l : List (ℚ × ℚ × ℚ)) :
    raw_rgb_batch l2r u2r s l = raw_rgb_batch l2r u2r "lab" l := by
  unfold raw_rgb_batch
  rw [if_neg h1, if_neg h2, if_neg (by decide : ¬("lab" : String) = "luv"),
    if_neg (by decide : ¬("lab" : String) = "rgb")]

/-- C10: for every colorspace string other than `"luv"` and `"rgb"`,
`_color_random` behaves exactly as it does for `"lab"` — no error is raised
and the lab path is taken. -/
theorem c10_unrecognized_colorspace_lab (l2r u2r : ℚ × ℚ × ℚ → ℚ × ℚ × ℚ)
    (fuel n : ℕ) (tol : ℚ) (seed : List ℚ) (s : String)
    (h1 : s ≠ "luv") (h2 : s ≠ "rgb") :
    _color_random l2r u2r fuel n s tol seed =
      _color_random l2r u2r fuel n "lab" tol seed := by
  unfold _color_random
  suffices hgo : ∀ (fuel factor : ℕ) (rgb : List (ℚ × ℚ × ℚ)),
      _color_random_go l2r u2r n s tol seed fuel factor rgb =
        _color_random_go l2r u2r n "lab" tol seed fuel factor rgb by
    exact hgo fuel 6 []
  intro fuel
  induction fuel with
  | zero => intro factor rgb; simp only [_color_random_go]
  | succ f ih =>
    intro factor rgb
    simp only [_color_random_go]
    by_cases hlen : n ≤ rgb.length
    · rw [if_pos hlen, if_pos hlen]
    · rw [if_neg hlen, if_neg hlen]
      cases hld : _low_discrepancy 3 (n * factor) seed with
      | none => rfl
      | some random =>
        show _color_random_go l2r u2r n s tol seed f (factor * 2)
            (_validate_rgb (raw_rgb_batch l2r u2r s (random.map toTriple)) tol) =
          _color_random_go l2r u2r n "lab" tol seed f (factor * 2)
            (_validate_rgb (raw_rgb_batch l2r u2r "lab" (random.map toTriple)) tol)
        rw [raw_rgb_batch_fallback l2r u2r s h1 h2]
        exact ih (factor * 2) _

/-- Witness for C10 at the unknown colorspace string `"foo"`. -/
theorem c10_witness :
    ("foo" : String) ≠ "luv" ∧ ("foo" : String) ≠ "rgb" ∧
    _color_random constHalf constHalf 2 3 "foo" 0 [1/2] =
      _color_random constHalf constHalf 2 3 "lab" 0 [1/2] :=
  ⟨by decide, by decide,
    c10_unrecognized_colorspace_lab constHalf constHalf 2 3 0 [1/2] "foo"
      (by decide) (by decide)⟩

/-! ### C5, C6 : the label colormap builder -/

theorem color_random_length (l2r u2r : ℚ × ℚ × ℚ → ℚ × ℚ × ℚ)
    (fuel n : ℕ) (cs : String) (tol : ℚ) (seed : List ℚ)
    (out : List (ℚ × ℚ × ℚ))
    (h : _color_random l2r u2r fuel n cs tol seed = some out) :
    out.length = n := by
  obtain ⟨m, rfl, hlen⟩ :=
    color_random_some_spec l2r u2r fuel n cs tol seed out h
  rw [List.length_take]
  omega

/-- C5 counterexample: at `num_colors = 4` the colormap has 5 control points
`[0, 0, 1/2, 1, 1]` — the `linspace` endpoints are kept, not dropped — so the
claimed count of exactly 4 control points is false. -/
theorem c5_counterexample :
    (label_colormap constHalf constHalf 1 4 [1/2]).map (fun cm => cm.controls) =
      some [(0 : ℚ), 0, 1/2, 1, 1] ∧
    ([(0 : ℚ), 0, 1/2, 1, 1].length ≠ 4) := by
  constructor
  · simp only [label_colormap]
    rw [show _color_random constHalf constHalf 1 4 "lab" 0 [1/2] =
        some (List.replicate 4 (1/2, 1/2, 1/2)) from
      color_random_constHalf 4 0 (by norm_num)]
    simp only [Option.map_some', Option.some.injEq]
    norm_num [linspace01, List.range_succ]
  · simp

/-- C5 (amended): for `num_colors = n ≥ 2`, `label_colormap` yields exactly
`n` colors but `n + 1` control points: `0`, then the `n - 1` points of
`linspace(0, 1, n-1)` — whose first and last are themselves `0` and `1`, so
`0` and `1` each occur twice — then `1`. -/
theorem c5_amended_label_colormap_sizes (l2r u2r : ℚ × ℚ × ℚ → ℚ × ℚ × ℚ)
    (fuel n : ℕ) (seed : List ℚ) (cm : Colormap) (hn : 2 ≤ n)
    (h : label_colormap l2r u2r fuel n seed = some cm) :
    cm.colors.length = n ∧ cm.controls.length = n + 1 ∧
    cm.controls = [(0 : ℚ)] ++ linspace01 (n - 1) ++ [1] := by
  simp only [label_colormap] at h
  cases hcr : _color_random l2r u2r fuel n "lab" 0 seed with
  | none => rw [hcr] at h; simp at h
  | some cs =>
    rw [hcr] at h
    simp only [Option.map_some'] at h
    obtain rfl := Option.some.inj h
    have hlen : cs.length = n :=
      color_random_length l2r u2r fuel n "lab" 0 seed cs hcr
    refine ⟨?_, ?_, rfl⟩
    · simp [List.length_set, hlen]
    · simp only [List.length_append, List.length_cons, List.length_nil,
        linspace01, List.length_map, List.length_range]
      omega

/-- Witness for C5 (amended) at `num_colors = 4` with the mid-gray
conversion. -/
theorem c5_amended_witness :
    ∃ cm, label_colormap constHalf constHalf 1 4 [1/2] = some cm ∧
      cm.colors.length = 4 ∧ cm.controls.length = 4 + 1 ∧
      cm.controls = [(0 : ℚ)] ++ linspace01 (4 - 1) ++ [1] := by
  have h : label_colormap constHalf constHalf 1 4 [1/2] =
      some { colors := [((0:ℚ), (0:ℚ), (0:ℚ), (0:ℚ)),
               ((1:ℚ)/2, (1:ℚ)/2, (1:ℚ)/2, (1:ℚ)),
               ((1:ℚ)/2, (1:ℚ)/2, (1:ℚ)/2, (1:ℚ)),
               ((1:ℚ)/2, (1:ℚ)/2, (1:ℚ)/2, (1:ℚ))],
             controls := [(0 : ℚ)] ++ linspace01 3 ++ [1],
             interpolation := "zero" } := by
    simp only [label_colormap]
    rw [show _color_random constHalf constHalf 1 4 "lab" 0 [1/2] =
        some (List.replicate 4 (1/2, 1/2, 1/2)) from
      color_random_constHalf 4 0 (by norm_num)]
    simp [List.replicate]
  obtain ⟨h1, h2, h3⟩ := c5_amended_label_colormap_sizes constHalf constHalf
    1 4 [1/2] _ (by norm_num) h
  exact ⟨_, h, h1, h2, h3⟩

/-- C6: for `num_colors ≥ 1` and any seed, the first color of the returned
colormap is fully transparent black `[0, 0, 0, 0]`, overriding whatever the
color generator produced. -/
theorem c6_first_color_transparent (l2r u2r : ℚ × ℚ × ℚ → ℚ × ℚ × ℚ)
    (fuel n : ℕ) (seed : List ℚ) (cm : Colormap) (hn : 1 ≤ n)
    (h : label_colormap l2r u2r fuel n seed = some cm) :
    cm.colors.head? = some ((0 : ℚ), (0 : ℚ), (0 : ℚ), (0 : ℚ)) := by
  simp only [label_colormap] at h
  cases hcr : _color_random l2r u2r fuel n "lab" 0 seed with
  | none => rw [hcr] at h; simp at h
  | some cs =>
    rw [hcr] at h
    simp only [Option.map_some'] at h
    obtain rfl := Option.some.inj h
    have hlen : cs.length = n :=
      color_random_length l2r u2r fuel n "lab" 0 seed cs hcr
    cases cs with
    | nil => simp at hlen; omega
    | cons a tl => simp

/-- Witness for C6 at `num_colors = 1` with the mid-gray conversion. -/
theorem c6_witness :
    ∃ cm, label_colormap constHalf constHalf 1 1 [1/2] = some cm ∧
      cm.colors.head? = some ((0 : ℚ), (0 : ℚ), (0 : ℚ), (0 : ℚ)) := by
  have h : label_colormap constHalf constHalf 1 1 [1/2] =
      some { colors := [((0:ℚ), (0:ℚ), (0:ℚ), (0:ℚ))],
             controls := [(0 : ℚ), 1], interpolation := "zero" } := by
    simp only [label_colormap]
    rw [show _color_random constHalf constHalf 1 1 "lab" 0 [1/2] =
        some (List.replicate 1 (1/2, 1/2, 1/2)) from
      color_random_constHalf 1 0 (by norm_num)]
    simp [linspace01, List.replicate]
  exact ⟨_, h,
    c6_first_color_transparent constHalf constHalf 1 1 [1/2] _ (by norm_num) h⟩

/-! ### C9 : determinism -/

/-- C9: every operation of the core is a pure function of its inputs — two
calls with identical arguments give identical results; in particular two
calls of `label_colormap` with `num_colors = 256` and seed `0.5` are
bit-identical. -/
theorem c9_determinism (l2r u2r : ℚ × ℚ × ℚ → ℚ × ℚ × ℚ) (fuel dim n : ℕ)
    (seed : List ℚ) (cs : String) (tol : ℚ) (colors : List (ℚ × ℚ × ℚ))
    (img : List ℤ) (s : ℚ) :
    _low_discrepancy dim n seed = _low_discrepancy dim n seed ∧
    _validate_rgb colors tol = _validate_rgb colors tol ∧
    _color_random l2r u2r fuel n cs tol seed =
      _color_random l2r u2r fuel n cs tol seed ∧
    _low_discrepancy_image img s = _low_discrepancy_image img s ∧
    label_colormap l2r u2r fuel n seed = label_colormap l2r u2r fuel n seed ∧
    label_colormap l2r u2r fuel 256 [1/2] =
      label_colormap l2r u2r fuel 256 [1/2] :=
  ⟨rfl, rfl, rfl, rfl, rfl, rfl⟩
